import Mathlib

/-!
Verification of the BipedalWalker simulation layer (src/walker.py).

The environment code is shallowly embedded: Python floats become exact
rationals, the numpy `RandomState` becomes an abstract draw-indexed model
(`RngModel`), the Box2D physics engine (an external capability per the spec)
becomes an abstract deterministic `Backend` structure, and `math.sin`/
`math.cos` become abstract function parameters.  The procedural terrain
generator, reward shaping, lidar callback, observation builder and the
reset/step episode logic are translated statement by statement from the
source.
-/

set_option maxHeartbeats 1000000

set_option allowUnsafeReducibility true

attribute [local semireducible] Rat.mul Rat.add Rat.sub Rat.div Rat.inv Rat.ofScientific
  Rat.blt Rat.normalize Rat.neg

/-- `FPS = 50` (src line 45). -/
def FPS : ℚ := 50

/-- `SCALE = 30.0` (src line 46). -/
def SCALE : ℚ := 30

/-- `MOTORS_TORQUE = 80` (src line 48). -/
def MOTORS_TORQUE : ℚ := 80

/-- `SPEED_HIP = 4` (src line 49). -/
def SPEED_HIP : ℚ := 4

/-- `SPEED_KNEE = 6` (src line 50). -/
def SPEED_KNEE : ℚ := 6

/-- `LIDAR_RANGE = 160/SCALE` (src line 51). -/
def LIDAR_RANGE : ℚ := 160 / SCALE

/-- `INITIAL_RANDOM = 5` (src line 53). -/
def INITIAL_RANDOM : ℚ := 5

/-- `VIEWPORT_W = 600` (src line 62). -/
def VIEWPORT_W : ℚ := 600

/-- `VIEWPORT_H = 400` (src line 63). -/
def VIEWPORT_H : ℚ := 400

/-- `TERRAIN_STEP = 14/SCALE` (src line 65). -/
def TERRAIN_STEP : ℚ := 14 / SCALE

/-- `TERRAIN_LENGTH = 200` generation steps (src line 66). -/
def TERRAIN_LENGTH : ℕ := 200

/-- `TERRAIN_HEIGHT = VIEWPORT_H/SCALE/4` (src line 67). -/
def TERRAIN_HEIGHT : ℚ := VIEWPORT_H / SCALE / 4

/-- `TERRAIN_GRASS = 10` (src line 68). -/
def TERRAIN_GRASS : ℕ := 10

/-- `TERRAIN_STARTPAD = 20` (src line 69). -/
def TERRAIN_STARTPAD : ℕ := 20

/-- `FRICTION = 2.5` (src line 70). -/
def FRICTION : ℚ := 2.5

/-- `np.sign` on exact rationals. -/
def npSign (x : ℚ) : ℚ := if 0 < x then 1 else if x < 0 then -1 else 0

/-- `np.clip(x, lo, hi)` on exact rationals. -/
def npClip (x lo hi : ℚ) : ℚ := min (max x lo) hi

/-- Abstract model of the instance-owned `numpy` `RandomState`
(`self.np_random`, src line 115): the value of the k-th draw is an arbitrary
function of the draw index, fixed once the generator is seeded.  One
`RngModel` value models one seeded generator; the mutable generator state is
the draw index threaded through the code. -/
structure RngModel where
  uniform : ℕ → ℚ → ℚ → ℚ
  randint : ℕ → ℕ → ℕ → ℕ
  rand : ℕ → ℚ

/-- Terrain grammar state constant `GRASS` (src line 132). -/
def GRASS : ℕ := 0

/-- Terrain grammar state constant `STUMP` (src line 132). -/
def STUMP : ℕ := 1

/-- Terrain grammar state constant `STAIRS` (src line 132). -/
def STAIRS : ℕ := 2

/-- Terrain grammar state constant `PIT` (src line 132). -/
def PIT : ℕ := 3

/-- The mutable state of `_generate_terrain` (src lines 131-232): the grammar
state, the grass undulation velocity, the current height, the run-length
counter, the oneshot flag, the loop-carried obstacle parameters, the point
lists, the emitted obstacle polygons (the static polygon bodies appended to
`self.terrain` inside the loop) and the RNG draw index. -/
structure TerrainGen where
  state : ℕ
  velocity : ℚ
  y : ℚ
  counter : ℤ
  oneshot : Bool
  original_y : ℚ
  stair_height : ℤ
  stair_width : ℕ
  stair_steps : ℕ
  terrain_x : List ℚ
  terrain_y : List ℚ
  obstacles : List (List (ℚ × ℚ))
  ridx : ℕ

/-- The branch dispatch of one `_generate_terrain` loop iteration
(src lines 145-221), for generation index `i` with current x-coordinate
`x = i * TERRAIN_STEP`. -/
def terrainBranch (R : RngModel) (i : ℕ) (s : TerrainGen) : TerrainGen :=
  let x : ℚ := (i : ℚ) * TERRAIN_STEP
  if s.state = GRASS ∧ ¬ s.oneshot then
    -- velocity = 0.8*velocity + 0.01*sign(TERRAIN_HEIGHT - y); noise after pad
    let v0 := 0.8 * s.velocity + 0.01 * npSign (TERRAIN_HEIGHT - s.y)
    if TERRAIN_STARTPAD < i then
      let v1 := v0 + R.uniform s.ridx (-1) 1 / SCALE
      { s with velocity := v1, y := s.y + v1, ridx := s.ridx + 1 }
    else
      { s with velocity := v0, y := s.y + v0 }
  else if s.state = PIT ∧ s.oneshot then
    -- counter = randint(3,5); two pit-wall rectangles, the second offset
    let c := R.randint s.ridx 3 5
    let poly : List (ℚ × ℚ) :=
      [(x, s.y), (x + TERRAIN_STEP, s.y),
       (x + TERRAIN_STEP, s.y - 4 * TERRAIN_STEP), (x, s.y - 4 * TERRAIN_STEP)]
    let poly2 := poly.map (fun p => (p.1 + TERRAIN_STEP * (c : ℚ), p.2))
    { s with ridx := s.ridx + 1, counter := (c : ℤ) + 2,
             obstacles := s.obstacles ++ [poly, poly2], original_y := s.y }
  else if s.state = PIT ∧ ¬ s.oneshot then
    let y0 := s.original_y
    let y1 := if 1 < s.counter then y0 - 4 * TERRAIN_STEP else y0
    { s with y := y1 }
  else if s.state = STUMP ∧ s.oneshot then
    -- counter = randint(1,3); one square stump of that size
    let c := R.randint s.ridx 1 3
    let poly : List (ℚ × ℚ) :=
      [(x, s.y), (x + (c : ℚ) * TERRAIN_STEP, s.y),
       (x + (c : ℚ) * TERRAIN_STEP, s.y + (c : ℚ) * TERRAIN_STEP),
       (x, s.y + (c : ℚ) * TERRAIN_STEP)]
    { s with ridx := s.ridx + 1, counter := (c : ℤ), obstacles := s.obstacles ++ [poly] }
  else if s.state = STAIRS ∧ s.oneshot then
    -- stair_height = ±1 from rand(); stair_width = randint(4,5);
    -- stair_steps = randint(3,5); one tread rectangle per step
    let sh : ℤ := if 1/2 < R.rand s.ridx then 1 else -1
    let sw := R.randint (s.ridx + 1) 4 5
    let sn := R.randint (s.ridx + 2) 3 5
    let treads := (List.range sn).map (fun n =>
      [(x + ((n * sw : ℕ) : ℚ) * TERRAIN_STEP,
        s.y + (((n : ℤ) * sh : ℤ) : ℚ) * TERRAIN_STEP),
       (x + (((1 + n) * sw : ℕ) : ℚ) * TERRAIN_STEP,
        s.y + (((n : ℤ) * sh : ℤ) : ℚ) * TERRAIN_STEP),
       (x + (((1 + n) * sw : ℕ) : ℚ) * TERRAIN_STEP,
        s.y + (((-1 + (n : ℤ) * sh : ℤ)) : ℚ) * TERRAIN_STEP),
       (x + ((n * sw : ℕ) : ℚ) * TERRAIN_STEP,
        s.y + (((-1 + (n : ℤ) * sh : ℤ)) : ℚ) * TERRAIN_STEP)])
    { s with ridx := s.ridx + 3, stair_height := sh, stair_width := sw,
             stair_steps := sn, original_y := s.y,
             obstacles := s.obstacles ++ treads,
             counter := ((sn * sw : ℕ) : ℤ) }
  else if s.state = STAIRS ∧ ¬ s.oneshot then
    -- s = stair_steps*stair_width - counter - stair_height; n = s/stair_width
    let sv : ℚ := ((s.stair_steps * s.stair_width : ℕ) : ℚ)
                    - (s.counter : ℚ) - (s.stair_height : ℚ)
    let n : ℚ := sv / ((s.stair_width : ℕ) : ℚ)
    { s with y := s.original_y + n * (s.stair_height : ℚ) * TERRAIN_STEP }
  else s

/-- The tail of one `_generate_terrain` loop iteration (src lines 222-232):
clear `oneshot`, append the current height, decrement the run-length counter
and, when it reaches zero, redraw it and transition the grammar state. -/
def terrainClose (R : RngModel) (hardcore : Bool) (s : TerrainGen) : TerrainGen :=
  let s1 := { s with oneshot := false,
                     terrain_y := s.terrain_y ++ [s.y],
                     counter := s.counter - 1 }
  if s1.counter = 0 then
    -- counter = randint(TERRAIN_GRASS/2, TERRAIN_GRASS)
    let s2 := { s1 with counter := ((R.randint s1.ridx (TERRAIN_GRASS / 2) TERRAIN_GRASS : ℕ) : ℤ),
                        ridx := s1.ridx + 1 }
    if s2.state = GRASS ∧ hardcore then
      -- state = randint(1, _STATES_) with _STATES_ = 4
      { s2 with state := R.randint s2.ridx 1 4, ridx := s2.ridx + 1, oneshot := true }
    else
      { s2 with state := GRASS, oneshot := true }
  else s1

/-- One full iteration of the `_generate_terrain` loop at generation index
`i` (src lines 141-232): append `x = i * TERRAIN_STEP`, run the branch
dispatch, then the closing bookkeeping. -/
def genTerrainStep (R : RngModel) (hardcore : Bool) (s : TerrainGen) (i : ℕ) : TerrainGen :=
  terrainClose R hardcore
    (terrainBranch R i { s with terrain_x := s.terrain_x ++ [(i : ℚ) * TERRAIN_STEP] })

/-- Initial loop state of `_generate_terrain` (src lines 132-140), starting
at RNG draw index `r0`.  The fields `original_y`, `stair_height`,
`stair_width` and `stair_steps` are uninitialized in the source until first
assigned; they default to 0 here and are assigned before use on every path
the source can take. -/
def genTerrainInit (r0 : ℕ) : TerrainGen :=
  { state := GRASS, velocity := 0, y := TERRAIN_HEIGHT,
    counter := (TERRAIN_STARTPAD : ℤ), oneshot := false,
    original_y := 0, stair_height := 0, stair_width := 0, stair_steps := 0,
    terrain_x := [], terrain_y := [], obstacles := [], ridx := r0 }

/-- The first `n` iterations of the `_generate_terrain` loop. -/
def genTerrainAux (R : RngModel) (hardcore : Bool) (r0 : ℕ) (n : ℕ) : TerrainGen :=
  (List.range n).foldl (genTerrainStep R hardcore) (genTerrainInit r0)

/-- `_generate_terrain` (src lines 131-253): all `TERRAIN_LENGTH` loop
iterations.  The ground polyline built afterwards (src lines 234-253)
connects consecutive terrain points into edge fixtures; it is geometry
handed to the physics backend and is a function of `terrain_x`/`terrain_y`
alone, so it is represented by those two lists. -/
def genTerrain (R : RngModel) (hardcore : Bool) (r0 : ℕ) : TerrainGen :=
  genTerrainAux R hardcore r0 TERRAIN_LENGTH

/-- One fixture report delivered by the physics backend's ray cast
(`LidarCallback.ReportFixture`, src lines 360-366): the fixture's collision
category bits and the hit fraction along the cast segment. -/
structure Hit where
  categoryBits : ℕ
  fraction : ℚ

/-- Abstract model of the deterministic Box2D physics backend, the external
capability the environment consumes (spec section 1): world construction from
the generated terrain plus the initial hull impulse, fixed-timestep
advancement under the four joint motor commands, kinematic observations,
contact reports, and ray casting.  `rayCast_fraction_mem` is the Box2D
ray-cast contract: a reported hit lies on the cast segment, so its fraction
of the segment length is in `[0, 1]`. -/
structure Backend (W : Type) where
  createWorld : List ℚ → List ℚ → List (List (ℚ × ℚ)) → ℚ → W
  worldStep : W → List (ℚ × ℚ) → W
  hullPos : W → ℚ × ℚ
  hullAngle : W → ℚ
  hullAngVel : W → ℚ
  velX : W → ℚ
  velY : W → ℚ
  jointAngle : W → ℕ → ℚ
  jointSpeed : W → ℕ → ℚ
  legGround : W → ℕ → Bool
  hullContact : W → Bool
  rayCast : W → ℚ × ℚ → ℚ × ℚ → List Hit
  rayCast_fraction_mem : ∀ w p q h, h ∈ rayCast w p q → 0 ≤ h.fraction ∧ h.fraction ≤ 1

/-- The mutable state of one `BipedalWalker` instance that the claims
observe: the physics world, the fatal hull-contact flag set by
`ContactDetector.BeginContact` (src lines 78-80), the nullable previous
shaping value, the scroll offset, the render-only cloud and terrain data,
and the RNG draw index of the instance-owned generator. -/
structure Env (W : Type) where
  world : W
  game_over : Bool
  prev_shaping : Option ℚ
  scroll : ℚ
  cloud_poly : List (List (ℚ × ℚ) × ℚ × ℚ)
  terrain_x : List ℚ
  terrain_y : List ℚ
  terrain_obstacles : List (List (ℚ × ℚ))
  ridx : ℕ

/-- The four joint motor commands `(motorSpeed, maxMotorTorque)` set from the
action before the world advances (src lines 381-388, `control_speed` is
`False`): hip/knee speed constant times the sign of the component, and
`MOTORS_TORQUE` times the clipped magnitude. -/
def motorCmds (a0 a1 a2 a3 : ℚ) : List (ℚ × ℚ) :=
  [(SPEED_HIP * npSign a0, MOTORS_TORQUE * npClip |a0| 0 1),
   (SPEED_KNEE * npSign a1, MOTORS_TORQUE * npClip |a1| 0 1),
   (SPEED_HIP * npSign a2, MOTORS_TORQUE * npClip |a2| 0 1),
   (SPEED_KNEE * npSign a3, MOTORS_TORQUE * npClip |a3| 0 1)]

/-- The total torque-usage cost accumulated by the loop
`for a in action: reward -= 0.00035 * MOTORS_TORQUE * np.clip(np.abs(a), 0, 1)`
(src lines 434-435).  Note the loop runs over every component of the given
action, however many there are. -/
def torqueCost (action : List ℚ) : ℚ :=
  (action.map (fun a => 0.00035 * MOTORS_TORQUE * npClip |a| 0 1)).sum

/-- `LidarCallback` folded over the backend's fixture reports
(src lines 360-366): skip fixtures whose category bits exclude bit 1
(`return 1` continues the cast), record the first qualifying fraction
(`return 0` stops), and keep the initial `1.0` when nothing qualifies
(src line 396). -/
def lidarScan (hits : List Hit) : ℚ :=
  match hits.find? (fun h => !(h.categoryBits &&& 1 == 0)) with
  | some h => h.fraction
  | none => 1

/-- The lidar ray endpoint for ray `i` (src lines 398-400):
`(pos.x + sin(1.5 i / 10) * LIDAR_RANGE, pos.y - cos(1.5 i / 10) * LIDAR_RANGE)`,
with `msin`/`mcos` abstracting `math.sin`/`math.cos`. -/
def lidarP2 (msin mcos : ℚ → ℚ) (pos : ℚ × ℚ) (i : ℕ) : ℚ × ℚ :=
  (pos.1 + msin (1.5 * (i : ℚ) / 10) * LIDAR_RANGE,
   pos.2 - mcos (1.5 * (i : ℚ) / 10) * LIDAR_RANGE)

/-- The hit fraction of lidar ray `i` cast from the hull position
(src lines 395-401). -/
def lidarFrac {W : Type} (B : Backend W) (msin mcos : ℚ → ℚ) (w : W) (pos : ℚ × ℚ)
    (i : ℕ) : ℚ :=
  lidarScan (B.rayCast w pos (lidarP2 msin mcos pos i))

/-- The 24-element observation vector (src lines 403-420): 14 hull/joint/
contact entries followed by the 10 lidar fractions in ray order. -/
def mkState {W : Type} (B : Backend W) (msin mcos : ℚ → ℚ) (w : W) : List ℚ :=
  let pos := B.hullPos w
  [B.hullAngle w,
   2 * B.hullAngVel w / FPS,
   0.3 * B.velX w * (VIEWPORT_W / SCALE) / FPS,
   0.3 * B.velY w * (VIEWPORT_H / SCALE) / FPS,
   B.jointAngle w 0,
   B.jointSpeed w 0 / SPEED_HIP,
   B.jointAngle w 1 + 1,
   B.jointSpeed w 1 / SPEED_KNEE,
   if B.legGround w 0 then 1 else 0,
   B.jointAngle w 2,
   B.jointSpeed w 2 / SPEED_HIP,
   B.jointAngle w 3 + 1,
   B.jointSpeed w 3 / SPEED_KNEE,
   if B.legGround w 1 then 1 else 0]
  ++ (List.range 10).map (lidarFrac B msin mcos w pos)

/-- The shaping potential `130 * pos.x / SCALE - 5 * |hull angle|`
(src lines 425-427). -/
def shapingVal {W : Type} (B : Backend W) (w : W) : ℚ :=
  130 * (B.hullPos w).1 / SCALE - 5 * |B.hullAngle w|

/-- The world after the physics advance of one step under the first four
action components (src lines 381-390). -/
def stepWorld {W : Type} (B : Backend W) (e : Env W) (a0 a1 a2 a3 : ℚ) : W :=
  B.worldStep e.world (motorCmds a0 a1 a2 a3)

/-- The non-override step reward (src lines 429-435): the shaping delta when
a previous shaping value exists, else 0, minus the torque costs of every
action component. -/
def ordinaryReward {W : Type} (B : Backend W) (e : Env W) (action : List ℚ) (w1 : W) : ℚ :=
  (match e.prev_shaping with
   | some p => shapingVal B w1 - p
   | none => 0) - torqueCost action

/-- The body of `_step` after the four action components have been read
(src lines 381-444): advance the world under the motor commands, merge the
contact detector's fatal flag, cast the lidar, build the observation,
update the scroll and shaping bookkeeping, apply the torque costs, then the
`-100` failure override and the success-position termination. -/
def stepCore {W : Type} (B : Backend W) (msin mcos : ℚ → ℚ) (e : Env W)
    (action : List ℚ) (a0 a1 a2 a3 : ℚ) : Env W × List ℚ × ℚ × Bool :=
  let w1 := stepWorld B e a0 a1 a2 a3
  let go := e.game_over || B.hullContact w1
  let pos := B.hullPos w1
  let state := mkState B msin mcos w1
  let scroll := pos.1 - VIEWPORT_W / SCALE / 5
  let shaping := shapingVal B w1
  let reward1 := (match e.prev_shaping with
    | some p => shaping - p
    | none => (0 : ℚ)) - torqueCost action
  let rd : ℚ × Bool := if go || decide (pos.1 < 0) then (-100, true) else (reward1, false)
  let done : Bool :=
    if decide (((TERRAIN_LENGTH : ℚ) - (TERRAIN_GRASS : ℚ)) * TERRAIN_STEP < pos.1)
    then true else rd.2
  ({ e with world := w1, game_over := go, prev_shaping := some shaping, scroll := scroll },
   state, rd.1, done)

/-- `_step` (src lines 372-444).  The source reads `action[0]..action[3]`
and raises an index error when the action has fewer than four components;
that failure is the `none` result.  Components beyond the fourth are not
read for the motors but still enter the torque-cost loop. -/
def stepEnv {W : Type} (B : Backend W) (msin mcos : ℚ → ℚ) (e : Env W)
    (action : List ℚ) : Option (Env W × List ℚ × ℚ × Bool) :=
  match action.get? 0, action.get? 1, action.get? 2, action.get? 3 with
  | some a0, some a1, some a2, some a3 =>
      some (stepCore B msin mcos e action a0 a1 a2 a3)
  | _, _, _, _ => none

/-- One cloud of `_generate_clouds` (src lines 259-267): a jittered
five-vertex polygon at a random x, together with its x extent.  Each cloud
consumes 11 RNG draws: one for the base x, then two per vertex. -/
def genCloud (R : RngModel) (msin mcos : ℚ → ℚ) (r0 : ℕ) :
    (List (ℚ × ℚ) × ℚ × ℚ) × ℕ :=
  let x := R.uniform r0 0 (TERRAIN_LENGTH : ℚ) * TERRAIN_STEP
  let y := VIEWPORT_H / SCALE * 3 / 4
  let poly := (List.range 5).map (fun (a : ℕ) =>
    (x + 15 * TERRAIN_STEP * msin (3.14 * 2 * (a : ℚ) / 5)
       + R.uniform (r0 + 1 + 2 * a : ℕ) 0 (5 * TERRAIN_STEP),
     y + 5 * TERRAIN_STEP * mcos (3.14 * 2 * (a : ℚ) / 5)
       + R.uniform (r0 + 2 + 2 * a : ℕ) 0 (5 * TERRAIN_STEP)))
  let xs := poly.map Prod.fst
  let x1 := xs.foldr min (x + 15 * TERRAIN_STEP * msin 0 + R.uniform (r0 + 1) 0 (5 * TERRAIN_STEP))
  let x2 := xs.foldr max (x + 15 * TERRAIN_STEP * msin 0 + R.uniform (r0 + 1) 0 (5 * TERRAIN_STEP))
  ((poly, x1, x2), r0 + 11)

/-- `_generate_clouds` (src lines 255-267): `TERRAIN_LENGTH / 20` clouds in
order, threading the RNG draw index. -/
def genClouds (R : RngModel) (msin mcos : ℚ → ℚ) (r0 : ℕ) :
    List (List (ℚ × ℚ) × ℚ × ℚ) × ℕ :=
  (List.range (TERRAIN_LENGTH / 20)).foldl
    (fun acc _ =>
      let c := genCloud R msin mcos acc.2
      (acc.1 ++ [c.1], c.2))
    ([], r0)

/-- `_reset` (src lines 269-370): tear down and rebuild the world (terrain
generation, cloud layout, then the initial hull impulse drawn uniformly from
`[-INITIAL_RANDOM, INITIAL_RANDOM]`, in that RNG draw order), clear the
fatal flag, null the previous shaping value, and perform one synthetic
zero-action step whose observation is returned.  Only the RNG draw index of
the incoming instance state survives into the new episode. -/
def resetEnv {W : Type} (B : Backend W) (R : RngModel) (msin mcos : ℚ → ℚ)
    (hardcore : Bool) (e : Env W) : Option (Env W × List ℚ) :=
  let tg := genTerrain R hardcore e.ridx
  let cl := genClouds R msin mcos tg.ridx
  let impulse := R.uniform cl.2 (-INITIAL_RANDOM) INITIAL_RANDOM
  let w0 := B.createWorld tg.terrain_x tg.terrain_y tg.obstacles impulse
  let e1 : Env W :=
    { world := w0, game_over := false, prev_shaping := none, scroll := 0,
      cloud_poly := cl.1, terrain_x := tg.terrain_x, terrain_y := tg.terrain_y,
      terrain_obstacles := tg.obstacles, ridx := cl.2 + 1 }
  (stepEnv B msin mcos e1 [0, 0, 0, 0]).map (fun out => (out.1, out.2.1))

/-- Run a sequence of `_step` calls, collecting the
(observation, reward, done) outputs. -/
def runEnv {W : Type} (B : Backend W) (msin mcos : ℚ → ℚ) :
    Env W → List (List ℚ) → Option (List (List ℚ × ℚ × Bool))
  | _, [] => some []
  | e, a :: rest =>
      (stepEnv B msin mcos e a).bind (fun out =>
        (runEnv B msin mcos out.1 rest).map
          (fun tl => (out.2.1, out.2.2.1, out.2.2.2) :: tl))

/-- `reset()` followed by a fixed action sequence: the initial observation
and the per-step (observation, reward, done) trajectory. -/
def episodeRun {W : Type} (B : Backend W) (R : RngModel) (msin mcos : ℚ → ℚ)
    (hardcore : Bool) (e : Env W) (acts : List (List ℚ)) :
    Option (List ℚ × List (List ℚ × ℚ × Bool)) :=
  (resetEnv B R msin mcos hardcore e).bind (fun p =>
    (runEnv B msin mcos p.1 acts).map (fun tr => (p.2, tr)))

/-- A concrete RNG realization: every `uniform`/`randint` draw returns its
lower bound and every `rand` draw returns 0. -/
def zeroRng : RngModel :=
  { uniform := fun _ lo _ => lo, randint := fun _ lo _ => lo, rand := fun _ => 0 }

/-- A concrete realization of the abstract `math.sin`/`math.cos` parameters. -/
def zfun : ℚ → ℚ := fun _ => 0

/-- A concrete physics backend whose hull sits at a fixed x-position with a
fixed fatal-contact report: enough to exercise the reward/termination logic
of `_step` on explicit inputs. -/
def constBackend (px : ℚ) (contact : Bool) : Backend Unit :=
  { createWorld := fun _ _ _ _ => ()
    worldStep := fun _ _ => ()
    hullPos := fun _ => (px, TERRAIN_HEIGHT)
    hullAngle := fun _ => 0
    hullAngVel := fun _ => 0
    velX := fun _ => 0
    velY := fun _ => 0
    jointAngle := fun _ _ => 0
    jointSpeed := fun _ _ => 0
    legGround := fun _ _ => false
    hullContact := fun _ => contact
    rayCast := fun _ _ _ => []
    rayCast_fraction_mem := fun _ _ _ _ hm => absurd hm (List.not_mem_nil _) }

/-- A concrete physics backend whose world is a step counter: the hull
advances one x-unit per step, so shaping grows across steps. -/
def countBackend : Backend ℕ :=
  { createWorld := fun _ _ _ _ => 0
    worldStep := fun n _ => n + 1
    hullPos := fun n => ((n : ℚ), TERRAIN_HEIGHT)
    hullAngle := fun _ => 0
    hullAngVel := fun _ => 0
    velX := fun _ => 0
    velY := fun _ => 0
    jointAngle := fun _ _ => 0
    jointSpeed := fun _ _ => 0
    legGround := fun _ _ => false
    hullContact := fun _ => false
    rayCast := fun _ _ _ => []
    rayCast_fraction_mem := fun _ _ _ _ hm => absurd hm (List.not_mem_nil _) }

/-- A concrete environment state over the trivial world, previous shaping 0. -/
def envU : Env Unit :=
  { world := (), game_over := false, prev_shaping := some 0, scroll := 0,
    cloud_poly := [], terrain_x := [], terrain_y := [], terrain_obstacles := [],
    ridx := 0 }

/-- `envU` with stale mutable state (fatal flag set, different scroll and
shaping): same RNG position, different junk fields. -/
def envUjunk : Env Unit :=
  { world := (), game_over := true, prev_shaping := some 42, scroll := 7,
    cloud_poly := [], terrain_x := [1], terrain_y := [2], terrain_obstacles := [],
    ridx := 0 }

/-- A concrete environment state over the counting world, previous shaping
null (as right after `_reset` initializes it). -/
def envN0 : Env ℕ :=
  { world := 0, game_over := false, prev_shaping := none, scroll := 0,
    cloud_poly := [], terrain_x := [], terrain_y := [], terrain_obstacles := [],
    ridx := 0 }

/-- The loop state during the flat start pad: after `n ≤ 19` iterations the
grammar is still in its initial `GRASS` run, the undulation velocity is 0,
the height is the baseline, and no draw has been consumed. -/
def padState (r0 n : ℕ) : TerrainGen :=
  { state := GRASS, velocity := 0, y := TERRAIN_HEIGHT,
    counter := 20 - (n : ℤ), oneshot := false, original_y := 0,
    stair_height := 0, stair_width := 0, stair_steps := 0,
    terrain_x := (List.range n).map (fun (i : ℕ) => (i : ℚ) * TERRAIN_STEP),
    terrain_y := List.replicate n TERRAIN_HEIGHT,
    obstacles := [], ridx := r0 }

lemma terrainBranch_terrain_x (R : RngModel) (i : ℕ) (s : TerrainGen) :
    (terrainBranch R i s).terrain_x = s.terrain_x := by
  unfold terrainBranch
  split_ifs <;> rfl

lemma terrainBranch_terrain_y (R : RngModel) (i : ℕ) (s : TerrainGen) :
    (terrainBranch R i s).terrain_y = s.terrain_y := by
  unfold terrainBranch
  split_ifs <;> rfl

lemma terrainBranch_state (R : RngModel) (i : ℕ) (s : TerrainGen) :
    (terrainBranch R i s).state = s.state := by
  unfold terrainBranch
  split_ifs <;> rfl

lemma terrainBranch_obstacles_grass (R : RngModel) (i : ℕ) (s : TerrainGen)
    (h : s.state = GRASS) : (terrainBranch R i s).obstacles = s.obstacles := by
  unfold terrainBranch
  split_ifs with h1 h2 h3 h4 h5 h6 <;> simp_all [GRASS, STUMP, STAIRS, PIT]

lemma terrainClose_terrain_x (R : RngModel) (hc : Bool) (s : TerrainGen) :
    (terrainClose R hc s).terrain_x = s.terrain_x := by
  simp only [terrainClose]
  split_ifs <;> rfl

lemma terrainClose_terrain_y (R : RngModel) (hc : Bool) (s : TerrainGen) :
    (terrainClose R hc s).terrain_y = s.terrain_y ++ [s.y] := by
  simp only [terrainClose]
  split_ifs <;> rfl

lemma terrainClose_obstacles (R : RngModel) (hc : Bool) (s : TerrainGen) :
    (terrainClose R hc s).obstacles = s.obstacles := by
  simp only [terrainClose]
  split_ifs <;> rfl

lemma terrainClose_velocity (R : RngModel) (hc : Bool) (s : TerrainGen) :
    (terrainClose R hc s).velocity = s.velocity := by
  simp only [terrainClose]
  split_ifs <;> rfl

lemma terrainClose_y (R : RngModel) (hc : Bool) (s : TerrainGen) :
    (terrainClose R hc s).y = s.y := by
  simp only [terrainClose]
  split_ifs <;> rfl

lemma terrainClose_state_nonhardcore (R : RngModel) (s : TerrainGen)
    (h : s.state = GRASS) : (terrainClose R false s).state = GRASS := by
  simp only [terrainClose]
  split_ifs <;> simp_all

lemma genTerrainStep_terrain_x (R : RngModel) (hc : Bool) (s : TerrainGen) (i : ℕ) :
    (genTerrainStep R hc s i).terrain_x = s.terrain_x ++ [(i : ℚ) * TERRAIN_STEP] := by
  unfold genTerrainStep
  rw [terrainClose_terrain_x, terrainBranch_terrain_x]

lemma genTerrainStep_terrain_y (R : RngModel) (hc : Bool) (s : TerrainGen) (i : ℕ) :
    ∃ v, (genTerrainStep R hc s i).terrain_y = s.terrain_y ++ [v] := by
  unfold genTerrainStep
  rw [terrainClose_terrain_y, terrainBranch_terrain_y]
  exact ⟨_, rfl⟩

lemma genTerrainStep_grass_inv (R : RngModel) (s : TerrainGen) (i : ℕ)
    (h : s.state = GRASS) (ho : s.obstacles = []) :
    (genTerrainStep R false s i).state = GRASS ∧ (genTerrainStep R false s i).obstacles = [] := by
  unfold genTerrainStep
  constructor
  · apply terrainClose_state_nonhardcore
    rw [terrainBranch_state]
    exact h
  · rw [terrainClose_obstacles, terrainBranch_obstacles_grass]
    · exact ho
    · exact h

lemma genTerrainAux_succ (R : RngModel) (hc : Bool) (r0 n : ℕ) :
    genTerrainAux R hc r0 (n + 1) = genTerrainStep R hc (genTerrainAux R hc r0 n) n := by
  unfold genTerrainAux
  rw [List.range_succ, List.foldl_append]
  rfl

lemma genTerrainAux_terrain_x (R : RngModel) (hc : Bool) (r0 : ℕ) :
    ∀ n, (genTerrainAux R hc r0 n).terrain_x
      = (List.range n).map (fun (i : ℕ) => (i : ℚ) * TERRAIN_STEP) := by
  intro n
  induction n with
  | zero => rfl
  | succ n ih =>
      rw [genTerrainAux_succ, genTerrainStep_terrain_x, ih, List.range_succ, List.map_append]
      rfl

lemma genTerrainAux_terrain_y_length (R : RngModel) (hc : Bool) (r0 : ℕ) :
    ∀ n, (genTerrainAux R hc r0 n).terrain_y.length = n := by
  intro n
  induction n with
  | zero => rfl
  | succ n ih =>
      obtain ⟨v, hv⟩ := genTerrainStep_terrain_y R hc (genTerrainAux R hc r0 n) n
      rw [genTerrainAux_succ, hv, List.length_append, ih]
      rfl


lemma startpad_inv (R : RngModel) (hc : Bool) (r0 : ℕ) :
    ∀ n, n ≤ 19 → genTerrainAux R hc r0 n = padState r0 n := by
  intro n
  induction n with
  | zero =>
      intro _
      simp only [genTerrainAux, List.range_zero, List.foldl_nil, genTerrainInit, padState,
        TERRAIN_STARTPAD]
      norm_num
  | succ n ih =>
      intro h
      have h1 : ¬ (TERRAIN_STARTPAD < n) := by
        simp only [TERRAIN_STARTPAD]
        omega
      rw [genTerrainAux_succ, ih (by omega)]
      have h2 : ¬ ((20 : ℤ) - (n : ℤ) - 1 = 0) := by omega
      simp only [genTerrainStep, terrainBranch, terrainClose, padState]
      simp only [GRASS, STUMP, STAIRS, PIT]
      norm_num [h1, npSign, h2]
      refine ⟨by omega, ?_, ?_⟩
      · rw [List.range_succ, List.map_append]
        rfl
      · rw [List.replicate_succ']

lemma startpad20 (R : RngModel) (hc : Bool) (r0 : ℕ) :
    (genTerrainAux R hc r0 20).terrain_y = List.replicate 20 TERRAIN_HEIGHT ∧
    (genTerrainAux R hc r0 20).velocity = 0 ∧
    (genTerrainAux R hc r0 20).y = TERRAIN_HEIGHT := by
  have h19 := startpad_inv R hc r0 19 (by omega)
  have e : genTerrainAux R hc r0 20 = genTerrainStep R hc (padState r0 19) 19 := by
    rw [show (20 : ℕ) = 19 + 1 from rfl, genTerrainAux_succ, h19]
  rw [e]
  unfold genTerrainStep
  rw [terrainClose_terrain_y, terrainClose_velocity, terrainClose_y,
      terrainBranch_terrain_y]
  simp only [terrainBranch, padState]
  simp only [GRASS, STUMP, STAIRS, PIT]
  norm_num [npSign, TERRAIN_STARTPAD]
  simp [← List.replicate_succ']

lemma terrain_y_take20 (R : RngModel) (hc : Bool) (r0 : ℕ) :
    ∀ n, 20 ≤ n →
    (genTerrainAux R hc r0 n).terrain_y.take 20 = List.replicate 20 TERRAIN_HEIGHT := by
  intro n
  induction n with
  | zero => intro hn; exact absurd hn (by omega)
  | succ n ih =>
      intro hn
      rcases Nat.lt_or_ge n 20 with h' | h'
      · have hn19 : n = 19 := by omega
        subst hn19
        rw [(startpad20 R hc r0).1, List.take_replicate]
        simp
      · obtain ⟨v, hv⟩ := genTerrainStep_terrain_y R hc (genTerrainAux R hc r0 n) n
        rw [genTerrainAux_succ, hv,
            List.take_append_of_le_length (by rw [genTerrainAux_terrain_y_length]; exact h'),
            ih h']

/-- C8: for every seed and both modes, terrain generation produces exactly
`TERRAIN_LENGTH = 200` points, the first `TERRAIN_STARTPAD = 20` heights all
equal the baseline `TERRAIN_HEIGHT`, and throughout the start pad the
mean-reverting velocity stays 0 and the height stays at the baseline (no
noise is drawn during the pad). -/
theorem terrain_length_and_startpad_flat (R : RngModel) (hc : Bool) (r0 : ℕ) :
    (genTerrain R hc r0).terrain_x.length = TERRAIN_LENGTH ∧
    (genTerrain R hc r0).terrain_y.length = TERRAIN_LENGTH ∧
    (∀ i, i < TERRAIN_STARTPAD →
      (genTerrain R hc r0).terrain_y[i]? = some TERRAIN_HEIGHT) ∧
    (∀ n, n ≤ TERRAIN_STARTPAD →
      (genTerrainAux R hc r0 n).velocity = 0 ∧
      (genTerrainAux R hc r0 n).y = TERRAIN_HEIGHT) := by
  refine ⟨?_, ?_, ?_, ?_⟩
  · rw [show genTerrain R hc r0 = genTerrainAux R hc r0 TERRAIN_LENGTH from rfl,
        genTerrainAux_terrain_x]
    simp
  · exact genTerrainAux_terrain_y_length R hc r0 TERRAIN_LENGTH
  · intro i hi
    have hi20 : i < 20 := by
      simpa [TERRAIN_STARTPAD] using hi
    have ht := terrain_y_take20 R hc r0 TERRAIN_LENGTH (by norm_num [TERRAIN_LENGTH])
    rw [show genTerrain R hc r0 = genTerrainAux R hc r0 TERRAIN_LENGTH from rfl,
        ← List.getElem?_take_of_lt hi20, ht, List.getElem?_replicate]
    simp [hi20]
  · intro n hn
    rcases Nat.lt_or_ge n 20 with h' | h'
    · rw [startpad_inv R hc r0 n (by omega)]
      exact ⟨rfl, rfl⟩
    · have hn20 : n = 20 := by
        have : n ≤ 20 := by simpa [TERRAIN_STARTPAD] using hn
        omega
      subst hn20
      exact ⟨(startpad20 R hc r0).2.1, (startpad20 R hc r0).2.2⟩

/-- Witness for `terrain_length_and_startpad_flat`: at seed model `zeroRng`,
the first terrain height is the baseline and the pad-end velocity is 0. -/
theorem terrain_length_and_startpad_flat_witness :
    (0 < TERRAIN_STARTPAD ∧
      (genTerrain zeroRng false 0).terrain_y[0]? = some TERRAIN_HEIGHT) ∧
    (TERRAIN_STARTPAD ≤ TERRAIN_STARTPAD ∧
      (genTerrainAux zeroRng false 0 TERRAIN_STARTPAD).velocity = 0) := by
  constructor
  · exact ⟨by norm_num [TERRAIN_STARTPAD],
      (terrain_length_and_startpad_flat zeroRng false 0).2.2.1 0
        (by norm_num [TERRAIN_STARTPAD])⟩
  · exact ⟨le_refl _,
      ((terrain_length_and_startpad_flat zeroRng false 0).2.2.2 TERRAIN_STARTPAD
        (le_refl _)).1⟩

/-- C7: for every seed realization and both modes, terrain point `i` has
x-coordinate exactly `i * TERRAIN_STEP`; the x-coordinates are independent
of every random draw. -/
theorem terrain_x_deterministic (R : RngModel) (hc : Bool) (r0 : ℕ) :
    (genTerrain R hc r0).terrain_x
      = (List.range TERRAIN_LENGTH).map (fun (i : ℕ) => (i : ℚ) * TERRAIN_STEP) :=
  genTerrainAux_terrain_x R hc r0 TERRAIN_LENGTH

/-- C6: in non-hardcore mode the terrain grammar never leaves `GRASS` (the
state after every loop prefix is `GRASS`), and consequently no obstacle
polygon (stump, stair tread, or pit wall) is ever emitted, for every seed
realization. -/
theorem nonhardcore_grass_no_obstacles (R : RngModel) (r0 : ℕ) :
    (∀ n, (genTerrainAux R false r0 n).state = GRASS ∧
          (genTerrainAux R false r0 n).obstacles = []) ∧
    (genTerrain R false r0).obstacles = [] := by
  have key : ∀ n, (genTerrainAux R false r0 n).state = GRASS ∧
      (genTerrainAux R false r0 n).obstacles = [] := by
    intro n
    induction n with
    | zero => exact ⟨rfl, rfl⟩
    | succ n ih =>
        rw [genTerrainAux_succ]
        exact genTerrainStep_grass_inv R _ n ih.1 ih.2
  exact ⟨key, (key TERRAIN_LENGTH).2⟩

lemma stepEnv_cons {W : Type} (B : Backend W) (ms mc : ℚ → ℚ) (e : Env W)
    (a0 a1 a2 a3 : ℚ) (rest : List ℚ) :
    stepEnv B ms mc e (a0 :: a1 :: a2 :: a3 :: rest)
      = some (stepCore B ms mc e (a0 :: a1 :: a2 :: a3 :: rest) a0 a1 a2 a3) := rfl

lemma stepCore_components {W : Type} (B : Backend W) (ms mc : ℚ → ℚ) (e : Env W)
    (action : List ℚ) (a0 a1 a2 a3 : ℚ) :
    stepCore B ms mc e action a0 a1 a2 a3 =
      ({ e with world := stepWorld B e a0 a1 a2 a3,
                game_over := e.game_over || B.hullContact (stepWorld B e a0 a1 a2 a3),
                prev_shaping := some (shapingVal B (stepWorld B e a0 a1 a2 a3)),
                scroll := (B.hullPos (stepWorld B e a0 a1 a2 a3)).1 - VIEWPORT_W / SCALE / 5 },
       mkState B ms mc (stepWorld B e a0 a1 a2 a3),
       (if (e.game_over || B.hullContact (stepWorld B e a0 a1 a2 a3))
             || decide ((B.hullPos (stepWorld B e a0 a1 a2 a3)).1 < 0)
        then ((-100 : ℚ), true)
        else (ordinaryReward B e action (stepWorld B e a0 a1 a2 a3), false)).1,
       if decide (((TERRAIN_LENGTH : ℚ) - (TERRAIN_GRASS : ℚ)) * TERRAIN_STEP
                    < (B.hullPos (stepWorld B e a0 a1 a2 a3)).1)
       then true
       else (if (e.game_over || B.hullContact (stepWorld B e a0 a1 a2 a3))
                  || decide ((B.hullPos (stepWorld B e a0 a1 a2 a3)).1 < 0)
             then ((-100 : ℚ), true)
             else (ordinaryReward B e action (stepWorld B e a0 a1 a2 a3), false)).2) := rfl

lemma stepCore_fatal {W : Type} (B : Backend W) (ms mc : ℚ → ℚ) (e : Env W)
    (action : List ℚ) (a0 a1 a2 a3 : ℚ)
    (h : (e.game_over || B.hullContact (stepWorld B e a0 a1 a2 a3)) = true
         ∨ (B.hullPos (stepWorld B e a0 a1 a2 a3)).1 < 0) :
    (stepCore B ms mc e action a0 a1 a2 a3).2.2.1 = -100 ∧
    (stepCore B ms mc e action a0 a1 a2 a3).2.2.2 = true := by
  have hcond : ((e.game_over || B.hullContact (stepWorld B e a0 a1 a2 a3))
      || decide ((B.hullPos (stepWorld B e a0 a1 a2 a3)).1 < 0)) = true := by
    rcases h with h | h
    · rw [h, Bool.true_or]
    · rw [decide_eq_true h, Bool.or_true]
  rw [stepCore_components]
  simp only [hcond, if_true]
  constructor
  · trivial
  · split_ifs <;> rfl

lemma stepCore_nofatal {W : Type} (B : Backend W) (ms mc : ℚ → ℚ) (e : Env W)
    (action : List ℚ) (a0 a1 a2 a3 : ℚ)
    (hgo : (e.game_over || B.hullContact (stepWorld B e a0 a1 a2 a3)) = false)
    (hx0 : 0 ≤ (B.hullPos (stepWorld B e a0 a1 a2 a3)).1) :
    (stepCore B ms mc e action a0 a1 a2 a3).2.2.1
      = ordinaryReward B e action (stepWorld B e a0 a1 a2 a3) ∧
    (stepCore B ms mc e action a0 a1 a2 a3).2.2.2
      = decide (((TERRAIN_LENGTH : ℚ) - (TERRAIN_GRASS : ℚ)) * TERRAIN_STEP
                  < (B.hullPos (stepWorld B e a0 a1 a2 a3)).1) := by
  have hcond : ((e.game_over || B.hullContact (stepWorld B e a0 a1 a2 a3))
      || decide ((B.hullPos (stepWorld B e a0 a1 a2 a3)).1 < 0)) = false := by
    rw [hgo, Bool.false_or, decide_eq_false (not_lt.mpr hx0)]
  rw [stepCore_components]
  simp only [hcond, Bool.false_eq_true, if_false]
  constructor
  · trivial
  · split_ifs with hs <;> simp_all

/-- C2: on any step where the fatal hull-contact flag is set (carried in or
reported by the contact detector during this step's physics advance) or the
hull x-position is below 0, `_step` returns reward exactly −100 — the
shaping delta and torque costs computed earlier in the step are entirely
replaced — and done = true. -/
theorem step_fatal_reward_override {W : Type} (B : Backend W) (ms mc : ℚ → ℚ)
    (e : Env W) (a0 a1 a2 a3 : ℚ) (rest : List ℚ)
    (h : (e.game_over || B.hullContact (stepWorld B e a0 a1 a2 a3)) = true
         ∨ (B.hullPos (stepWorld B e a0 a1 a2 a3)).1 < 0) :
    ∃ e1 obs, stepEnv B ms mc e (a0 :: a1 :: a2 :: a3 :: rest)
      = some (e1, obs, -100, true) := by
  obtain ⟨h1, h2⟩ := stepCore_fatal B ms mc e (a0 :: a1 :: a2 :: a3 :: rest) a0 a1 a2 a3 h
  refine ⟨(stepCore B ms mc e (a0 :: a1 :: a2 :: a3 :: rest) a0 a1 a2 a3).1,
          (stepCore B ms mc e (a0 :: a1 :: a2 :: a3 :: rest) a0 a1 a2 a3).2.1, ?_⟩
  rw [stepEnv_cons]
  exact congrArg some (Prod.ext rfl (Prod.ext rfl (Prod.ext h1 h2)))

/-- Witness for `step_fatal_reward_override`: a backend that reports hull
contact at x = 5 yields reward −100 and done. -/
theorem step_fatal_reward_override_witness :
    ∃ e1 obs, stepEnv (constBackend 5 true) zfun zfun envU [0, 0, 0, 0]
      = some (e1, obs, -100, true) :=
  step_fatal_reward_override (constBackend 5 true) zfun zfun envU 0 0 0 0 []
    (Or.inl (by decide))

/-- C10: when both termination conditions hold on the same step — the fatal
flag (or x < 0) together with the hull x-position beyond the success
threshold — the failure override takes precedence: reward = −100 and
done = true, never the ordinary shaping reward. -/
theorem step_fatal_precedence_over_success {W : Type} (B : Backend W) (ms mc : ℚ → ℚ)
    (e : Env W) (a0 a1 a2 a3 : ℚ) (rest : List ℚ)
    (hfatal : (e.game_over || B.hullContact (stepWorld B e a0 a1 a2 a3)) = true
         ∨ (B.hullPos (stepWorld B e a0 a1 a2 a3)).1 < 0)
    (_hx : ((TERRAIN_LENGTH : ℚ) - (TERRAIN_GRASS : ℚ)) * TERRAIN_STEP
            < (B.hullPos (stepWorld B e a0 a1 a2 a3)).1) :
    ∃ e1 obs, stepEnv B ms mc e (a0 :: a1 :: a2 :: a3 :: rest)
      = some (e1, obs, -100, true) := by
  obtain ⟨h1, h2⟩ := stepCore_fatal B ms mc e (a0 :: a1 :: a2 :: a3 :: rest) a0 a1 a2 a3 hfatal
  refine ⟨(stepCore B ms mc e (a0 :: a1 :: a2 :: a3 :: rest) a0 a1 a2 a3).1,
          (stepCore B ms mc e (a0 :: a1 :: a2 :: a3 :: rest) a0 a1 a2 a3).2.1, ?_⟩
  rw [stepEnv_cons]
  exact congrArg some (Prod.ext rfl (Prod.ext rfl (Prod.ext h1 h2)))

/-- Witness for `step_fatal_precedence_over_success`: hull contact reported
at x = 89, past the success threshold 266/3 ≈ 88.67. -/
theorem step_fatal_precedence_over_success_witness :
    ∃ e1 obs, stepEnv (constBackend 89 true) zfun zfun envU [0, 0, 0, 0]
      = some (e1, obs, -100, true) :=
  step_fatal_precedence_over_success (constBackend 89 true) zfun zfun envU 0 0 0 0 []
    (Or.inl (by decide)) (by norm_num [constBackend, stepWorld, TERRAIN_LENGTH,
      TERRAIN_GRASS, TERRAIN_STEP, SCALE])

/-- C3 (amended): on a step where the hull x-position exceeds the success
threshold `(TERRAIN_LENGTH − TERRAIN_GRASS) * TERRAIN_STEP` and the fatal
hull-contact flag is not set, `_step` returns done = true with the ordinary
shaping-delta-minus-torque-cost reward and no −100 override.  (The x < 0
branch cannot fire since the threshold is positive.) -/
theorem step_success_ordinary_reward {W : Type} (B : Backend W) (ms mc : ℚ → ℚ)
    (e : Env W) (a0 a1 a2 a3 : ℚ) (rest : List ℚ)
    (hgo : (e.game_over || B.hullContact (stepWorld B e a0 a1 a2 a3)) = false)
    (hx : ((TERRAIN_LENGTH : ℚ) - (TERRAIN_GRASS : ℚ)) * TERRAIN_STEP
            < (B.hullPos (stepWorld B e a0 a1 a2 a3)).1) :
    ∃ e1 obs, stepEnv B ms mc e (a0 :: a1 :: a2 :: a3 :: rest)
      = some (e1, obs,
          ordinaryReward B e (a0 :: a1 :: a2 :: a3 :: rest) (stepWorld B e a0 a1 a2 a3),
          true) := by
  have hth : (0 : ℚ) ≤ ((TERRAIN_LENGTH : ℚ) - (TERRAIN_GRASS : ℚ)) * TERRAIN_STEP := by
    norm_num [TERRAIN_LENGTH, TERRAIN_GRASS, TERRAIN_STEP, SCALE]
  obtain ⟨h1, h2⟩ := stepCore_nofatal B ms mc e (a0 :: a1 :: a2 :: a3 :: rest) a0 a1 a2 a3
    hgo (le_of_lt (lt_of_le_of_lt hth hx))
  refine ⟨(stepCore B ms mc e (a0 :: a1 :: a2 :: a3 :: rest) a0 a1 a2 a3).1,
          (stepCore B ms mc e (a0 :: a1 :: a2 :: a3 :: rest) a0 a1 a2 a3).2.1, ?_⟩
  rw [stepEnv_cons]
  refine congrArg some (Prod.ext rfl (Prod.ext rfl (Prod.ext h1 ?_)))
  rw [h2, decide_eq_true hx]

/-- Counterexample to C3 as stated: at x = 89 (past the success threshold)
with the fatal contact flag reported, the step returns −100 — not the
ordinary shaping value, which here is 1157/3. -/
theorem step_success_claim_counterexample :
    ((TERRAIN_LENGTH : ℚ) - (TERRAIN_GRASS : ℚ)) * TERRAIN_STEP < (89 : ℚ) ∧
    (stepEnv (constBackend 89 true) zfun zfun envU [0, 0, 0, 0]).map
        (fun out => (out.2.2.1, out.2.2.2)) = some (-100, true) ∧
    ordinaryReward (constBackend 89 true) envU [0, 0, 0, 0]
        (stepWorld (constBackend 89 true) envU 0 0 0 0) = 1157 / 3 ∧
    (1157 / 3 : ℚ) ≠ -100 := by
  refine ⟨?_, ?_, ?_, ?_⟩ <;> decide

/-- Witness for `step_success_ordinary_reward`: no contact at x = 89. -/
theorem step_success_ordinary_reward_witness :
    ∃ e1 obs, stepEnv (constBackend 89 false) zfun zfun envU [0, 0, 0, 0]
      = some (e1, obs,
          ordinaryReward (constBackend 89 false) envU [0, 0, 0, 0]
            (stepWorld (constBackend 89 false) envU 0 0 0 0),
          true) :=
  step_success_ordinary_reward (constBackend 89 false) zfun zfun envU 0 0 0 0 []
    (by decide)
    (by norm_num [constBackend, stepWorld, TERRAIN_LENGTH, TERRAIN_GRASS,
      TERRAIN_STEP, SCALE])

lemma ordinaryReward_none {W : Type} (B : Backend W) (e : Env W) (action : List ℚ)
    (w1 : W) (h : e.prev_shaping = none) :
    ordinaryReward B e action w1 = -(torqueCost action) := by
  simp [ordinaryReward, h]

lemma stepCore_env_prev_shaping {W : Type} (B : Backend W) (ms mc : ℚ → ℚ)
    (e : Env W) (action : List ℚ) (a0 a1 a2 a3 : ℚ) :
    (stepCore B ms mc e action a0 a1 a2 a3).1.prev_shaping
      = some (shapingVal B (stepWorld B e a0 a1 a2 a3)) := rfl

lemma resetEnv_eq_map {W : Type} (B : Backend W) (R : RngModel) (ms mc : ℚ → ℚ)
    (hc : Bool) (e : Env W) :
    ∃ e1 : Env W, resetEnv B R ms mc hc e
      = some ((stepCore B ms mc e1 [0, 0, 0, 0] 0 0 0 0).1,
              (stepCore B ms mc e1 [0, 0, 0, 0] 0 0 0 0).2.1)
      ∧ e1.prev_shaping = none := by
  refine ⟨_, rfl, rfl⟩

/-- C4 (amended): the previous shaping value is null exactly during the
synthetic zero-action step performed inside `reset()` — any step taken with
a null previous shaping contributes 0 progress-reward, so absent the fatal
override its reward is exactly `-Σ 0.00035*MOTORS_TORQUE*clip(|a_i|,0,1)`;
and every successful `reset()` returns with the previous shaping value set,
so the first user-visible `step` call after `reset()` returns includes a
shaping delta. -/
theorem prev_shaping_null_only_inside_reset {W : Type} (B : Backend W) (ms mc : ℚ → ℚ) :
    (∀ (e : Env W) (a0 a1 a2 a3 : ℚ) (rest : List ℚ),
      e.prev_shaping = none →
      (e.game_over || B.hullContact (stepWorld B e a0 a1 a2 a3)) = false →
      0 ≤ (B.hullPos (stepWorld B e a0 a1 a2 a3)).1 →
      ∃ e1 obs d, stepEnv B ms mc e (a0 :: a1 :: a2 :: a3 :: rest)
        = some (e1, obs, -(torqueCost (a0 :: a1 :: a2 :: a3 :: rest)), d)) ∧
    (∀ (R : RngModel) (hc : Bool) (e e1 : Env W) (obs : List ℚ),
      resetEnv B R ms mc hc e = some (e1, obs) → e1.prev_shaping ≠ none) := by
  constructor
  · intro e a0 a1 a2 a3 rest hnone hgo hx0
    obtain ⟨h1, h2⟩ := stepCore_nofatal B ms mc e (a0 :: a1 :: a2 :: a3 :: rest) a0 a1 a2 a3
      hgo hx0
    refine ⟨(stepCore B ms mc e (a0 :: a1 :: a2 :: a3 :: rest) a0 a1 a2 a3).1,
            (stepCore B ms mc e (a0 :: a1 :: a2 :: a3 :: rest) a0 a1 a2 a3).2.1,
            (stepCore B ms mc e (a0 :: a1 :: a2 :: a3 :: rest) a0 a1 a2 a3).2.2.2, ?_⟩
    rw [stepEnv_cons]
    refine congrArg some (Prod.ext rfl (Prod.ext rfl (Prod.ext ?_ rfl)))
    rw [h1]
    exact ordinaryReward_none B e (a0 :: a1 :: a2 :: a3 :: rest) _ hnone
  · intro R hc e e1 obs h
    obtain ⟨e0, he, _⟩ := resetEnv_eq_map B R ms mc hc e
    rw [he, Option.some_inj] at h
    have h1 : e1 = (stepCore B ms mc e0 [0, 0, 0, 0] 0 0 0 0).1 := (congrArg Prod.fst h).symm
    rw [h1, stepCore_env_prev_shaping]
    exact Option.some_ne_none _

/-- Counterexample to C4 as stated: with a counting backend, the very first
user `step` call after `reset()` returns reward 13/3, not the pure
torque-cost value 0 — the synthetic zero-action step inside reset already
consumed the null previous-shaping value. -/
theorem first_step_after_reset_counterexample :
    (episodeRun countBackend zeroRng zfun zfun false envN0 [[0, 0, 0, 0]]).map
        (fun p => p.2.map (fun t => t.2.1)) = some [13 / 3] ∧
    -(torqueCost [(0 : ℚ), 0, 0, 0]) = 0 ∧ (13 / 3 : ℚ) ≠ 0 := by
  exact ⟨by decide, by decide, by decide⟩

/-- Witness for `prev_shaping_null_only_inside_reset`. -/
theorem prev_shaping_null_only_inside_reset_witness :
    (∃ e1 obs d, stepEnv countBackend zfun zfun envN0 [1, 0, 0, 0]
        = some (e1, obs, -(torqueCost [1, 0, 0, 0]), d)) ∧
    (∃ e1 obs, resetEnv countBackend zeroRng zfun zfun false envN0 = some (e1, obs) ∧
        e1.prev_shaping ≠ none) := by
  constructor
  · exact (prev_shaping_null_only_inside_reset countBackend zfun zfun).1 envN0 1 0 0 0 []
      rfl (by decide) (by decide)
  · have hs : (resetEnv countBackend zeroRng zfun zfun false envN0).isSome = true := by decide
    obtain ⟨p, hp⟩ := Option.isSome_iff_exists.mp hs
    refine ⟨p.1, p.2, by rw [hp], ?_⟩
    exact (prev_shaping_null_only_inside_reset countBackend zfun zfun).2 zeroRng false
      envN0 p.1 p.2 (by rw [hp])

lemma lidarScan_bounds (hits : List Hit)
    (hb : ∀ h ∈ hits, 0 ≤ h.fraction ∧ h.fraction ≤ 1) :
    0 ≤ lidarScan hits ∧ lidarScan hits ≤ 1 := by
  unfold lidarScan
  cases hf : hits.find? (fun h => !(h.categoryBits &&& 1 == 0)) with
  | none => norm_num
  | some h => exact hb h (List.mem_of_find?_eq_some hf)

lemma lidarFrac_bounds {W : Type} (B : Backend W) (ms mc : ℚ → ℚ) (w : W)
    (pos : ℚ × ℚ) (i : ℕ) :
    0 ≤ lidarFrac B ms mc w pos i ∧ lidarFrac B ms mc w pos i ≤ 1 :=
  lidarScan_bounds _ (fun h hm => B.rayCast_fraction_mem w pos (lidarP2 ms mc pos i) h hm)

lemma mkState_length {W : Type} (B : Backend W) (ms mc : ℚ → ℚ) (w : W) :
    (mkState B ms mc w).length = 24 := by
  simp [mkState]

lemma mkState_drop14 {W : Type} (B : Backend W) (ms mc : ℚ → ℚ) (w : W) :
    (mkState B ms mc w).drop 14
      = (List.range 10).map (lidarFrac B ms mc w (B.hullPos w)) := rfl

/-- C5: every observation produced by `_step` (and hence by `_reset`, whose
returned observation comes from the synthetic zero-action step) has exactly
24 elements; elements 14 through 23 are the 10 lidar hit fractions in ray
order, each in [0, 1]; and a ray with no qualifying (ground-category) hit
reports exactly 1. -/
theorem observation_length_and_lidar_bounds {W : Type} (B : Backend W) (ms mc : ℚ → ℚ) :
    (∀ (e : Env W) (a0 a1 a2 a3 : ℚ) (rest : List ℚ),
      ∃ e1 obs r d, stepEnv B ms mc e (a0 :: a1 :: a2 :: a3 :: rest) = some (e1, obs, r, d) ∧
        obs.length = 24 ∧
        obs.drop 14 = (List.range 10).map (lidarFrac B ms mc e1.world (B.hullPos e1.world)) ∧
        ∀ q ∈ obs.drop 14, 0 ≤ q ∧ q ≤ 1) ∧
    (∀ (R : RngModel) (hc : Bool) (e e1 : Env W) (obs : List ℚ),
      resetEnv B R ms mc hc e = some (e1, obs) →
      obs.length = 24 ∧ ∀ q ∈ obs.drop 14, 0 ≤ q ∧ q ≤ 1) ∧
    (∀ hits : List Hit, (∀ h ∈ hits, h.categoryBits &&& 1 = 0) → lidarScan hits = 1) := by
  have bounds : ∀ (w : W), ∀ q ∈ (mkState B ms mc w).drop 14, 0 ≤ q ∧ q ≤ 1 := by
    intro w q hq
    rw [mkState_drop14] at hq
    obtain ⟨i, _, rfl⟩ := List.mem_map.mp hq
    exact lidarFrac_bounds B ms mc w (B.hullPos w) i
  refine ⟨?_, ?_, ?_⟩
  · intro e a0 a1 a2 a3 rest
    refine ⟨(stepCore B ms mc e (a0 :: a1 :: a2 :: a3 :: rest) a0 a1 a2 a3).1,
            (stepCore B ms mc e (a0 :: a1 :: a2 :: a3 :: rest) a0 a1 a2 a3).2.1,
            (stepCore B ms mc e (a0 :: a1 :: a2 :: a3 :: rest) a0 a1 a2 a3).2.2.1,
            (stepCore B ms mc e (a0 :: a1 :: a2 :: a3 :: rest) a0 a1 a2 a3).2.2.2,
            stepEnv_cons B ms mc e a0 a1 a2 a3 rest, ?_, rfl, ?_⟩
    · exact mkState_length B ms mc _
    · exact bounds _
  · intro R hc e e1 obs h
    obtain ⟨e0, he, _⟩ := resetEnv_eq_map B R ms mc hc e
    rw [he, Option.some_inj] at h
    have hobs : obs = (stepCore B ms mc e0 [0, 0, 0, 0] 0 0 0 0).2.1 :=
      (congrArg Prod.snd h).symm
    rw [hobs]
    exact ⟨mkState_length B ms mc _, bounds _⟩
  · intro hits hall
    unfold lidarScan
    rw [List.find?_eq_none.mpr]
    · intro x hx
      simp [hall x hx]

/-- Witness for `observation_length_and_lidar_bounds`: the reset observation
of the counting backend has 24 elements, and the empty report list scans
to 1. -/
theorem observation_length_and_lidar_bounds_witness :
    (∃ e1 obs, resetEnv countBackend zeroRng zfun zfun false envN0 = some (e1, obs) ∧
        obs.length = 24) ∧ lidarScan [] = 1 := by
  constructor
  · have hs : (resetEnv countBackend zeroRng zfun zfun false envN0).isSome = true := by decide
    obtain ⟨p, hp⟩ := Option.isSome_iff_exists.mp hs
    refine ⟨p.1, p.2, by rw [hp], ?_⟩
    exact ((observation_length_and_lidar_bounds countBackend zfun zfun).2.1 zeroRng false
      envN0 p.1 p.2 (by rw [hp])).1
  · exact (observation_length_and_lidar_bounds countBackend zfun zfun).2.2 []
      (fun h hm => absurd hm (List.not_mem_nil _))

lemma npClip_pos_iff (a : ℚ) : 0 < npClip a (-1) 1 ↔ 0 < a := by
  unfold npClip
  rw [lt_min_iff, lt_max_iff]
  norm_num

lemma npClip_neg_iff (a : ℚ) : npClip a (-1) 1 < 0 ↔ a < 0 := by
  unfold npClip
  rw [min_lt_iff, max_lt_iff]
  norm_num

lemma npSign_clamp (a : ℚ) : npSign (npClip a (-1) 1) = npSign a := by
  unfold npSign
  simp only [npClip_pos_iff, npClip_neg_iff]

lemma npClip_of_mem (x lo hi : ℚ) (h0 : lo ≤ x) (h1 : x ≤ hi) : npClip x lo hi = x := by
  unfold npClip
  rw [max_eq_left h0, min_eq_left h1]

lemma abs_npClip (a : ℚ) : |npClip a (-1) 1| = min |a| 1 := by
  rcases le_total 0 a with h | h
  · rw [show npClip a (-1) 1 = min a 1 from by
        unfold npClip
        rw [max_eq_left (le_trans (by norm_num) h)],
      abs_of_nonneg (le_min h (by norm_num)), abs_of_nonneg h]
  · rw [show npClip a (-1) 1 = max a (-1) from by
        unfold npClip
        rw [min_eq_left (max_le (le_trans h (by norm_num)) (by norm_num))],
      abs_of_nonpos (max_le h (by norm_num)), abs_of_nonpos h, neg_sup]
    norm_num

lemma npClipAbs_clamp (a : ℚ) : npClip |npClip a (-1) 1| 0 1 = npClip |a| 0 1 := by
  have h1 : npClip |a| 0 1 = min |a| 1 := by
    unfold npClip
    rw [max_eq_left (abs_nonneg a)]
  have h2 : npClip |npClip a (-1) 1| 0 1 = |npClip a (-1) 1| := by
    refine npClip_of_mem _ 0 1 (abs_nonneg _) ?_
    rw [abs_npClip]
    exact min_le_right _ _
  rw [h2, abs_npClip, h1]

lemma torqueCost_cons (a : ℚ) (l : List ℚ) :
    torqueCost (a :: l) = 0.00035 * MOTORS_TORQUE * npClip |a| 0 1 + torqueCost l := by
  simp [torqueCost]

lemma motorCmds_clamp (a0 a1 a2 a3 : ℚ) :
    motorCmds (npClip a0 (-1) 1) (npClip a1 (-1) 1) (npClip a2 (-1) 1) (npClip a3 (-1) 1)
      = motorCmds a0 a1 a2 a3 := by
  unfold motorCmds
  rw [npSign_clamp, npSign_clamp, npSign_clamp, npSign_clamp,
      npClipAbs_clamp, npClipAbs_clamp, npClipAbs_clamp, npClipAbs_clamp]

lemma torqueCost_clamp (action : List ℚ) :
    torqueCost (action.map (fun a => npClip a (-1) 1)) = torqueCost action := by
  unfold torqueCost
  rw [List.map_map]
  congr 1
  apply List.map_congr_left
  intro a _
  simp only [Function.comp_apply, npClipAbs_clamp]

/-- C9 (amended): `_step` with fewer than four action components fails (the
source raises an index error reading `action[0..3]`); `_step` with four or
more components succeeds — the first four drive the motors while every
component, extras included, enters the torque-cost loop; and out-of-range
component values are not errors: the step behaves exactly as if each
component were clamped to [-1, 1]. -/
theorem action_arity_and_clamping {W : Type} (B : Backend W) (ms mc : ℚ → ℚ) :
    (∀ (e : Env W) (action : List ℚ), action.length < 4 → stepEnv B ms mc e action = none) ∧
    (∀ (e : Env W) (a0 a1 a2 a3 : ℚ) (rest : List ℚ),
      ∃ out, stepEnv B ms mc e (a0 :: a1 :: a2 :: a3 :: rest) = some out) ∧
    (∀ (e : Env W) (action : List ℚ),
      stepEnv B ms mc e (action.map (fun a => npClip a (-1) 1))
        = stepEnv B ms mc e action) := by
  refine ⟨?_, ?_, ?_⟩
  · intro e action h
    rcases action with _ | ⟨x0, _ | ⟨x1, _ | ⟨x2, _ | ⟨x3, rest⟩⟩⟩⟩
    · rfl
    · rfl
    · rfl
    · rfl
    · exfalso
      simp only [List.length_cons] at h
      omega
  · intro e a0 a1 a2 a3 rest
    exact ⟨_, stepEnv_cons B ms mc e a0 a1 a2 a3 rest⟩
  · intro e action
    rcases action with _ | ⟨x0, _ | ⟨x1, _ | ⟨x2, _ | ⟨x3, rest⟩⟩⟩⟩
    · rfl
    · rfl
    · rfl
    · rfl
    · have ht : torqueCost (npClip x0 (-1) 1 :: npClip x1 (-1) 1 :: npClip x2 (-1) 1 ::
            npClip x3 (-1) 1 :: rest.map (fun a => npClip a (-1) 1))
          = torqueCost (x0 :: x1 :: x2 :: x3 :: rest) := by
        simp only [torqueCost_cons, npClipAbs_clamp, torqueCost_clamp]
      simp only [List.map_cons]
      rw [stepEnv_cons, stepEnv_cons]
      unfold stepCore stepWorld
      rw [motorCmds_clamp, ht]

/-- Counterexample to C9 as stated: a five-component action does not fail —
the step is accepted, and the out-of-range fifth component 7 is clamped and
charged the full per-component torque cost, giving reward −7/250. -/
theorem action_arity_counterexample :
    (stepEnv (constBackend 5 false) zfun zfun
        { envU with prev_shaping := some (shapingVal (constBackend 5 false) ()) }
        [0, 0, 0, 0, 7]).map (fun out => (out.2.2.1, out.2.2.2))
      = some (-7 / 250, false) ∧
    ([(0 : ℚ), 0, 0, 0, 7].length ≠ 4) := by
  exact ⟨by decide, by decide⟩

/-- Witness for `action_arity_and_clamping`. -/
theorem action_arity_and_clamping_witness :
    ([(0 : ℚ), 0].length < 4 ∧ stepEnv (constBackend 5 false) zfun zfun envU [0, 0] = none) ∧
    (∃ out, stepEnv (constBackend 5 false) zfun zfun envU [0, 0, 0, 0, 7] = some out) ∧
    (stepEnv (constBackend 5 false) zfun zfun envU ([2, 0, 0, 0].map (fun a => npClip a (-1) 1))
      = stepEnv (constBackend 5 false) zfun zfun envU [2, 0, 0, 0]) := by
  refine ⟨⟨by decide, ?_⟩, ?_, ?_⟩
  · exact (action_arity_and_clamping (constBackend 5 false) zfun zfun).1 envU [0, 0] (by decide)
  · exact (action_arity_and_clamping (constBackend 5 false) zfun zfun).2.1 envU 0 0 0 0 [7]
  · exact (action_arity_and_clamping (constBackend 5 false) zfun zfun).2.2 envU [2, 0, 0, 0]

/-- C1: for a fixed seed and a fixed action sequence, two independent runs
of `reset()` followed by that action sequence produce identical observation,
reward and done sequences.  Every stochastic operation — terrain generation,
cloud layout, the initial impulse — draws from the single instance-owned
generator in a fixed order, and the physics backend is a deterministic
function, so the whole trajectory depends on the pre-reset instance state
only through the generator position: two instances whose generators agree
(same seed model `R`, same draw index) yield equal trajectories whatever
their other mutable state. -/
theorem episode_deterministic {W : Type} (B : Backend W) (R : RngModel)
    (ms mc : ℚ → ℚ) (hc : Bool) (e1 e2 : Env W) (acts : List (List ℚ))
    (h : e1.ridx = e2.ridx) :
    episodeRun B R ms mc hc e1 acts = episodeRun B R ms mc hc e2 acts := by
  unfold episodeRun resetEnv
  rw [h]

/-- Witness for `episode_deterministic`: two instances with equal generator
position but different stale mutable state (fatal flag, shaping, scroll,
terrain leftovers) produce the same trajectory. -/
theorem episode_deterministic_witness :
    envU.ridx = envUjunk.ridx ∧
    episodeRun (constBackend 1 false) zeroRng zfun zfun false envU [[0, 0, 0, 0]]
      = episodeRun (constBackend 1 false) zeroRng zfun zfun false envUjunk [[0, 0, 0, 0]] :=
  ⟨rfl, episode_deterministic (constBackend 1 false) zeroRng zfun zfun false
    envU envUjunk [[0, 0, 0, 0]] rfl⟩
